import Mathlib

/-!
Shallow embedding of the Clight backlight-control module
(`src/modules/backlight.c`) and of the legacy actuation client
(`clight/src/brightness.c`), together with theorems settling the
frozen specification claims about them.

Doubles are modelled as rationals, C `int` as `Int`, bitmasks as `Nat`.
External bus calls (the clightd sensor / backlight services) are modelled
by an explicit environment record carrying the call results, and the
observable side effects of a handler (bus calls issued, messages
published, timer rearming, log lines) are collected in a list of actions.
-/

/- ------------------------------------------------------------------
Pause / resume bitmask (enum backlight_pause, pause_mod, resume_mod)
------------------------------------------------------------------- -/

/-- The four independent pause reasons of `enum backlight_pause`
(`DISPLAY = 0x01`, `SENSOR = 0x02`, `AUTOCALIB = 0x04`, `LID = 0x08`);
`UNPAUSED = 0` is the empty bitmask. -/
inductive BacklightPause
  | DISPLAY
  | SENSOR
  | AUTOCALIB
  | LID
deriving DecidableEq

/-- Numeric value of each `enum backlight_pause` constant. -/
def BacklightPause.mask : BacklightPause → Nat
  | .DISPLAY => 0x01
  | .SENSOR => 0x02
  | .AUTOCALIB => 0x04
  | .LID => 0x08

/-- `UNPAUSED = 0` from `enum backlight_pause`. -/
def UNPAUSED : Nat := 0

/-- The two behaviors that can sit on the module's behavior stack once
initialization is over: the default `receive` behavior and the
`receive_paused` behavior pushed by `m_become(paused)`. -/
inductive Behavior
  | active
  | paused
deriving DecidableEq

/-- The fragment of module state that `pause_mod` / `resume_mod` touch:
the `paused_state` bitmask and the libmodule behavior stack
(`m_become` pushes, `m_unbecome` pops; head is the current behavior). -/
structure PauseSt where
  paused_state : Nat
  stack : List Behavior
deriving DecidableEq

/-- Bitwise complement of a mask as computed by C `~type` on a 32-bit
`int` operand, restricted to the low 32 bits that can ever meet
`paused_state` (which stays below 16, see `pauseInv_run`). -/
def intCompl (m : Nat) : Nat := Nat.xor (2 ^ 32 - 1) m

/-- `pause_mod`: OR the reason into `paused_state`; on the empty-to-non-empty
edge call `m_become(paused)` (push the paused behavior). -/
def pause_mod (type : BacklightPause) (s : PauseSt) : PauseSt :=
  let old_paused := s.paused_state
  let ps := Nat.lor old_paused type.mask
  if old_paused = UNPAUSED ∧ ps ≠ UNPAUSED then
    { paused_state := ps, stack := Behavior.paused :: s.stack }
  else
    { s with paused_state := ps }

/-- `resume_mod`: AND the complement of the reason into `paused_state`;
on the non-empty-to-empty edge call `m_unbecome()` (pop the behavior
stack). -/
def resume_mod (type : BacklightPause) (s : PauseSt) : PauseSt :=
  let old_paused := s.paused_state
  let ps := Nat.land old_paused (intCompl type.mask)
  if old_paused ≠ UNPAUSED ∧ ps = UNPAUSED then
    { paused_state := ps, stack := s.stack.tail }
  else
    { s with paused_state := ps }

/-- One call in a pause/resume call sequence. -/
inductive PauseOp
  | pause (r : BacklightPause)
  | resume (r : BacklightPause)

/-- Apply one pause/resume call. -/
def pauseStep (s : PauseSt) (op : PauseOp) : PauseSt :=
  match op with
  | .pause r => pause_mod r s
  | .resume r => resume_mod r s

/-- Initial state: `paused_state = UNPAUSED` and the module is in the
default Active behavior. -/
def pauseInit : PauseSt := { paused_state := UNPAUSED, stack := [Behavior.active] }

/-- Run a sequence of pause/resume calls from the unpaused Active state. -/
def runPause (ops : List PauseOp) : PauseSt := ops.foldl pauseStep pauseInit

/-- The module is currently in the paused behavior (top of the behavior
stack is `paused`). -/
def inPausedBehavior (s : PauseSt) : Prop := s.stack.head? = some Behavior.paused

instance (s : PauseSt) : Decidable (inPausedBehavior s) := by
  unfold inPausedBehavior; infer_instance

/-- Reason `r` is a member of the pause-reason bitmask. -/
def reasonSet (r : BacklightPause) (s : PauseSt) : Prop :=
  Nat.land s.paused_state r.mask ≠ 0

instance (r : BacklightPause) (s : PauseSt) : Decidable (reasonSet r s) := by
  unfold reasonSet; infer_instance

/-- Every pause-reason mask is one of the four enum bits. -/
lemma mask_mem_enum (r : BacklightPause) : r.mask ∈ [1, 2, 4, 8] := by
  cases r <;> decide

/-- Arithmetic facts about 4-bit pause bitmasks, checked by enumeration:
OR keeps the mask below 16 and non-empty, OR of an already-set bit is the
identity, AND-NOT keeps the mask below 16, and AND-NOT of an unset bit is
the identity. -/
lemma pause_bit_facts :
    ∀ ps < 16, ∀ m ∈ [1, 2, 4, 8],
      Nat.lor ps m < 16 ∧ Nat.lor ps m ≠ 0 ∧
      (Nat.land ps m ≠ 0 → Nat.lor ps m = ps) ∧
      Nat.land ps (intCompl m) < 16 ∧
      (Nat.land ps m = 0 → Nat.land ps (intCompl m) = ps) ∧
      (ps = 0 → Nat.lor ps m = m) ∧
      (ps = 0 → Nat.land ps (intCompl m) = 0) ∧
      (ps = 0 → Nat.land ps m = 0) := by
  decide

/-- A 4-bit mask is non-empty exactly when one of the four enum bits is
set in it. -/
lemma nonempty_mask_iff :
    ∀ ps < 16, (ps ≠ 0 ↔
      (Nat.land ps 1 ≠ 0 ∨ Nat.land ps 2 ≠ 0 ∨ Nat.land ps 4 ≠ 0 ∨
        Nat.land ps 8 ≠ 0)) := by
  decide

/-- Branch-explicit form of `pause_mod`. -/
lemma pause_mod_def (r : BacklightPause) (s : PauseSt) :
    pause_mod r s =
      if s.paused_state = 0 ∧ Nat.lor s.paused_state r.mask ≠ 0 then
        { paused_state := Nat.lor s.paused_state r.mask,
          stack := Behavior.paused :: s.stack }
      else
        { paused_state := Nat.lor s.paused_state r.mask, stack := s.stack } := by
  unfold pause_mod UNPAUSED
  rfl

/-- Branch-explicit form of `resume_mod`. -/
lemma resume_mod_def (r : BacklightPause) (s : PauseSt) :
    resume_mod r s =
      if s.paused_state ≠ 0 ∧ Nat.land s.paused_state (intCompl r.mask) = 0 then
        { paused_state := Nat.land s.paused_state (intCompl r.mask),
          stack := s.stack.tail }
      else
        { paused_state := Nat.land s.paused_state (intCompl r.mask),
          stack := s.stack } := by
  unfold resume_mod UNPAUSED
  rfl

/-- State invariant maintained by `pause_mod`/`resume_mod` from
`pauseInit`: the bitmask fits in 4 bits and the behavior stack is
`[active]` when the mask is empty and `[paused, active]` otherwise. -/
def PauseInv (s : PauseSt) : Prop :=
  s.paused_state < 16 ∧
    s.stack = (if s.paused_state = 0 then [Behavior.active]
               else [Behavior.paused, Behavior.active])

lemma pauseInv_pause (r : BacklightPause) (s : PauseSt) (h : PauseInv s) :
    PauseInv (pause_mod r s) := by
  obtain ⟨hlt, hstack⟩ := h
  obtain ⟨hb1, hb2, hb3, hb4, hb5, hb6, hb7, hb8⟩ :=
    pause_bit_facts s.paused_state hlt r.mask (mask_mem_enum r)
  rw [pause_mod_def]
  by_cases h0 : s.paused_state = 0
  · rw [if_pos ⟨h0, hb2⟩]
    refine ⟨hb1, ?_⟩
    rw [if_neg hb2, hstack, if_pos h0]
  · rw [if_neg (by simp [h0])]
    refine ⟨hb1, ?_⟩
    rw [if_neg hb2, hstack, if_neg h0]

lemma pauseInv_resume (r : BacklightPause) (s : PauseSt) (h : PauseInv s) :
    PauseInv (resume_mod r s) := by
  obtain ⟨hlt, hstack⟩ := h
  obtain ⟨hb1, hb2, hb3, hb4, hb5, hb6, hb7, hb8⟩ :=
    pause_bit_facts s.paused_state hlt r.mask (mask_mem_enum r)
  rw [resume_mod_def]
  by_cases h0 : s.paused_state = 0
  · rw [if_neg (by simp [h0])]
    refine ⟨hb4, ?_⟩
    rw [hb7 h0, if_pos rfl, hstack, if_pos h0]
  · by_cases hz : Nat.land s.paused_state (intCompl r.mask) = 0
    · rw [if_pos ⟨h0, hz⟩]
      refine ⟨by simp [hz], ?_⟩
      rw [hz, if_pos rfl, hstack, if_neg h0, List.tail_cons]
    · rw [if_neg (by simp [hz])]
      refine ⟨hb4, ?_⟩
      rw [if_neg hz, hstack, if_neg h0]

lemma pauseInv_fold (ops : List PauseOp) :
    ∀ s : PauseSt, PauseInv s → PauseInv (ops.foldl pauseStep s) := by
  induction ops with
  | nil => intro s h; simpa using h
  | cons op tl ih =>
      intro s h
      rw [List.foldl_cons]
      refine ih (pauseStep s op) ?_
      cases op with
      | pause r => exact pauseInv_pause r s h
      | resume r => exact pauseInv_resume r s h

lemma pauseInv_run (ops : List PauseOp) : PauseInv (runPause ops) :=
  pauseInv_fold ops pauseInit (by refine ⟨?_, ?_⟩ <;> decide)

/-- C1: for every sequence of `pause_mod`/`resume_mod` calls starting from
the unpaused Active state, the module is in the paused behavior iff the
pause-reason bitmask is non-empty (equivalently, iff some reason is set);
pausing an already-set reason or resuming an unset reason changes nothing;
`m_become(paused)` (a stack push) happens exactly on the empty-to-non-empty
edge and `m_unbecome` (a stack pop) exactly on the non-empty-to-empty
edge. -/
theorem backlight_C1 (ops : List PauseOp) (r : BacklightPause) :
    (inPausedBehavior (runPause ops) ↔ (runPause ops).paused_state ≠ UNPAUSED)
    ∧ ((runPause ops).paused_state ≠ UNPAUSED ↔
        ∃ r', reasonSet r' (runPause ops))
    ∧ (reasonSet r (runPause ops) → pause_mod r (runPause ops) = runPause ops)
    ∧ (¬reasonSet r (runPause ops) →
        resume_mod r (runPause ops) = runPause ops)
    ∧ ((pause_mod r (runPause ops)).stack =
        if (runPause ops).paused_state = UNPAUSED then
          Behavior.paused :: (runPause ops).stack
        else (runPause ops).stack)
    ∧ ((resume_mod r (runPause ops)).stack =
        if (runPause ops).paused_state ≠ UNPAUSED ∧
            Nat.land (runPause ops).paused_state (intCompl r.mask) = UNPAUSED
        then (runPause ops).stack.tail
        else (runPause ops).stack) := by
  obtain ⟨hlt, hstack⟩ := pauseInv_run ops
  obtain ⟨hb1, hb2, hb3, hb4, hb5, hb6, hb7, hb8⟩ :=
    pause_bit_facts (runPause ops).paused_state hlt r.mask (mask_mem_enum r)
  unfold UNPAUSED
  refine ⟨?_, ?_, ?_, ?_, ?_, ?_⟩
  · unfold inPausedBehavior
    rw [hstack]
    by_cases h0 : (runPause ops).paused_state = 0
    · simp [h0]
    · simp [h0]
  · constructor
    · intro h0
      rcases (nonempty_mask_iff (runPause ops).paused_state hlt).mp h0 with
        h | h | h | h
      · exact ⟨BacklightPause.DISPLAY, h⟩
      · exact ⟨BacklightPause.SENSOR, h⟩
      · exact ⟨BacklightPause.AUTOCALIB, h⟩
      · exact ⟨BacklightPause.LID, h⟩
    · rintro ⟨r', hr'⟩ h0
      obtain ⟨_, _, _, _, _, _, _, hc8⟩ :=
        pause_bit_facts (runPause ops).paused_state hlt r'.mask
          (mask_mem_enum r')
      exact hr' (hc8 h0)
  · intro hr
    have h0 : (runPause ops).paused_state ≠ 0 := fun h => hr (hb8 h)
    rw [pause_mod_def, if_neg (by simp [h0]), hb3 hr]
  · intro hr
    have hid : Nat.land (runPause ops).paused_state (intCompl r.mask) =
        (runPause ops).paused_state := hb5 (not_not.mp (fun h => hr h))
    rw [resume_mod_def, hid, if_neg (by tauto)]
  · rw [pause_mod_def]
    by_cases h0 : (runPause ops).paused_state = 0
    · rw [if_pos ⟨h0, hb2⟩, if_pos h0]
    · rw [if_neg (by simp [h0]), if_neg h0]
  · rw [resume_mod_def]
    by_cases hc : (runPause ops).paused_state ≠ 0 ∧
        Nat.land (runPause ops).paused_state (intCompl r.mask) = 0
    · rw [if_pos hc, if_pos hc]
    · rw [if_neg hc, if_neg hc]

/-- Witness for `backlight_C1` at the concrete call sequence
pause(DISPLAY); pause(SENSOR); resume(DISPLAY): the SENSOR reason is
still set, so the module is still paused and pausing SENSOR again is a
no-op. -/
theorem backlight_C1_witness :
    pause_mod BacklightPause.SENSOR
        (runPause [PauseOp.pause BacklightPause.DISPLAY,
          PauseOp.pause BacklightPause.SENSOR,
          PauseOp.resume BacklightPause.DISPLAY]) =
      runPause [PauseOp.pause BacklightPause.DISPLAY,
        PauseOp.pause BacklightPause.SENSOR,
        PauseOp.resume BacklightPause.DISPLAY]
    ∧ inPausedBehavior
        (runPause [PauseOp.pause BacklightPause.DISPLAY,
          PauseOp.pause BacklightPause.SENSOR,
          PauseOp.resume BacklightPause.DISPLAY]) := by
  refine ⟨(backlight_C1 [PauseOp.pause BacklightPause.DISPLAY,
    PauseOp.pause BacklightPause.SENSOR,
    PauseOp.resume BacklightPause.DISPLAY]
    BacklightPause.SENSOR).2.2.1 (by decide), ?_⟩
  exact (backlight_C1 [PauseOp.pause BacklightPause.DISPLAY,
    PauseOp.pause BacklightPause.SENSOR,
    PauseOp.resume BacklightPause.DISPLAY]
    BacklightPause.SENSOR).1.mpr (by decide)

/- ------------------------------------------------------------------
WaitingInit startup gate (receive_waiting_init)
------------------------------------------------------------------- -/

/-- The message types the module subscribes to (plus `FD_UPD`, the timer
readiness message the runtime delivers for registered descriptors). -/
inductive MsgT
  | UPOWER_UPD
  | DISPLAY_UPD
  | LID_UPD
  | DAYTIME_UPD
  | IN_EVENT_UPD
  | BL_TO_REQ
  | CAPTURE_REQ
  | CURVE_REQ
  | NO_AUTOCALIB_REQ
  | BL_REQ
  | FD_UPD
deriving DecidableEq

/-- The bit each message type contributes to the local `ok` accumulator of
`receive_waiting_init` (`UPOWER_STARTED = 1`, `LID_STARTED = 2`,
`DAYTIME_STARTED = 4`); every other message type contributes nothing. -/
def startedBit : MsgT → Nat
  | .UPOWER_UPD => 1
  | .LID_UPD => 2
  | .DAYTIME_UPD => 4
  | _ => 0

/-- `ALL_STARTED = 7` from `receive_waiting_init`. -/
def ALL_STARTED : Nat := 7

/-- State of the startup gate: the static 3-bit `ok` accumulator, whether
the module is still in the `waiting_init` behavior, and how many times the
one-time setup block (signal watches, timer creation, `m_unbecome`) has
run. -/
structure WIState where
  ok : Nat
  inWaitingInit : Bool
  setupCount : Nat
deriving DecidableEq

/-- `receive_waiting_init`: accumulate the readiness bit of the message,
and when the accumulator reaches `ALL_STARTED` run the one-time setup and
`m_unbecome()` to the Active behavior. -/
def receive_waiting_init (s : WIState) (m : MsgT) : WIState :=
  let ok := Nat.lor s.ok (startedBit m)
  if ok = ALL_STARTED then
    { ok := ok, inWaitingInit := false, setupCount := s.setupCount + 1 }
  else
    { s with ok := ok }

/-- Runtime dispatch during startup: messages reach
`receive_waiting_init` only while it is the module's current behavior;
after `m_unbecome` they are delivered to the Active behavior instead. -/
def wiDispatch (s : WIState) (m : MsgT) : WIState :=
  if s.inWaitingInit then receive_waiting_init s m else s

/-- Initial startup-gate state (`ok = 0`, behavior `waiting_init`). -/
def wiInit : WIState := { ok := 0, inWaitingInit := true, setupCount := 0 }

/-- Deliver a message sequence to the module, starting in `waiting_init`. -/
def runWaitingInit (ms : List MsgT) : WIState := ms.foldl wiDispatch wiInit

/-- The accumulator value determined by which of the three readiness
signals occur in a message sequence. -/
def seenMask (ms : List MsgT) : Nat :=
  (if MsgT.UPOWER_UPD ∈ ms then 1 else 0) +
    (if MsgT.LID_UPD ∈ ms then 2 else 0) +
    (if MsgT.DAYTIME_UPD ∈ ms then 4 else 0)

lemma seenMask_append (ms : List MsgT) (m : MsgT) :
    seenMask (ms ++ [m]) = Nat.lor (seenMask ms) (startedBit m) := by
  cases m <;>
    simp only [seenMask, startedBit, List.mem_append, List.mem_singleton,
      or_true, or_false, if_true, reduceCtorEq] <;>
    split_ifs <;> rfl

lemma seenMask_le (ms : List MsgT) : seenMask ms < 8 := by
  unfold seenMask
  split_ifs <;> decide

/-- Characterization of the startup gate after any message sequence: the
accumulator equals the mask of readiness signals seen so far, the module
has left `waiting_init` exactly when all three have been seen, and the
setup block has run once in that case and never otherwise. -/
lemma runWaitingInit_spec (ms : List MsgT) :
    (runWaitingInit ms).ok = seenMask ms ∧
    ((runWaitingInit ms).inWaitingInit = false ↔ seenMask ms = 7) ∧
    (runWaitingInit ms).setupCount = (if seenMask ms = 7 then 1 else 0) := by
  induction ms using List.reverseRecOn with
  | nil =>
      refine ⟨rfl, ?_, rfl⟩
      simp [runWaitingInit, wiInit, seenMask]
  | append_singleton ms m ih =>
      obtain ⟨ihok, ihwait, ihcnt⟩ := ih
      have hrun : runWaitingInit (ms ++ [m]) =
          wiDispatch (runWaitingInit ms) m := by
        unfold runWaitingInit
        rw [List.foldl_append, List.foldl_cons, List.foldl_nil]
      have hmask := seenMask_append ms m
      by_cases h7 : seenMask ms = 7
      · have hw : (runWaitingInit ms).inWaitingInit = false := ihwait.mpr h7
        have h7' : seenMask (ms ++ [m]) = 7 := by
          rw [hmask, h7]
          cases m <;> decide
        rw [hrun]
        unfold wiDispatch
        rw [hw]
        simp only [Bool.false_eq_true, if_false]
        exact ⟨by rw [ihok, h7, h7'], by simp [hw, h7'],
          by rw [ihcnt, h7', if_pos h7, if_pos rfl]⟩
      · have hw : (runWaitingInit ms).inWaitingInit = true := by
          cases hwi : (runWaitingInit ms).inWaitingInit
          · exact absurd (ihwait.mp hwi) h7
          · rfl
        rw [hrun]
        unfold wiDispatch receive_waiting_init ALL_STARTED
        rw [hw, if_pos rfl, ihok, ← hmask]
        by_cases h7' : seenMask (ms ++ [m]) = 7
        · rw [if_pos h7']
          exact ⟨rfl, by simp [h7'], by rw [ihcnt, if_neg h7, if_pos h7']⟩
        · rw [if_neg h7']
          exact ⟨rfl, by simp [h7'], by rw [ihcnt, if_neg h7, if_neg h7']⟩

lemma seenMask_eq_seven (ms : List MsgT) :
    seenMask ms = 7 ↔
      (MsgT.UPOWER_UPD ∈ ms ∧ MsgT.LID_UPD ∈ ms ∧ MsgT.DAYTIME_UPD ∈ ms) := by
  unfold seenMask
  split_ifs <;> simp_all

/-- C2: for every message sequence delivered from the initial
`waiting_init` behavior, the one-time setup and the `m_unbecome` to
Active happen at most once; they happen exactly when the three distinct
readiness signals `UPOWER_UPD`, `LID_UPD` and `DAYTIME_UPD` have each
been observed (in any order, duplicates irrelevant); and the 3-bit
`ok` accumulator is exactly the mask of readiness signals observed, so no
other message type advances it. -/
theorem backlight_C2 (ms : List MsgT) :
    (runWaitingInit ms).setupCount ≤ 1
    ∧ ((runWaitingInit ms).setupCount = 1 ↔
        (MsgT.UPOWER_UPD ∈ ms ∧ MsgT.LID_UPD ∈ ms ∧ MsgT.DAYTIME_UPD ∈ ms))
    ∧ ((runWaitingInit ms).inWaitingInit = false ↔
        (MsgT.UPOWER_UPD ∈ ms ∧ MsgT.LID_UPD ∈ ms ∧ MsgT.DAYTIME_UPD ∈ ms))
    ∧ (runWaitingInit ms).ok = seenMask ms := by
  obtain ⟨hok, hwait, hcnt⟩ := runWaitingInit_spec ms
  refine ⟨?_, ?_, ?_, hok⟩
  · rw [hcnt]; split_ifs <;> decide
  · rw [hcnt, ← seenMask_eq_seven]
    split_ifs with h <;> simp [h]
  · rw [hwait, seenMask_eq_seven]

/- ------------------------------------------------------------------
Shared state, timeout table, capture & actuation pipeline
------------------------------------------------------------------- -/

/-- `enum ac_states` (power source): on AC or on battery. -/
inductive AcStates
  | ON_AC
  | ON_BATTERY
deriving DecidableEq

/-- Modelled from the spec: the daytime-bucket enumeration (its defining
header is not part of the sources here). The buckets are day and night,
and the timeout table has one extra slot `IN_EVENT` used while an event
window is active, so `DAY = 0`, `NIGHT = 1`, and
`IN_EVENT = SIZE_STATES = 2` indexes the extra slot of the
`SIZE_STATES + 1` per-power-state entries. -/
def DAY : Int := 0

/-- Modelled from the spec: the night daytime bucket (see `DAY`). -/
def NIGHT : Int := 1

/-- Modelled from the spec: number of natural daytime buckets
(see `DAY`). -/
def SIZE_STATES : Int := 2

/-- Modelled from the spec: the event-window slot of the timeout table
(see `DAY`). -/
def IN_EVENT : Int := SIZE_STATES

/-- The kinds of request message the module subscribes to. -/
inductive ReqKind
  | bl_to
  | capture
  | curve
  | no_autocalib
  | bl
deriving DecidableEq

/-- The process-wide state and configuration fields that the backlight
module reads and writes (`state.*` and `conf.*` in the C sources):
ambient brightness, screen compensation, current backlight percentage,
power source, daytime bucket and event-window flag, display-dimmed and
sensor-availability and per-pause-session flags, quadratic fit
coefficients and calibration-point counts per power source, the
`SIZE_AC x (SIZE_STATES + 1)` timeout table, shutter threshold, smoothing
configuration, and the identity token of the most current outstanding
request of each kind (the request-freshness data consulted by
`VALIDATE_REQ`). -/
structure St where
  ambient_br : ℚ
  screen_comp : ℚ
  current_bl_pct : ℚ
  ac_state : AcStates
  day_time : Int
  in_event : Bool
  display_state : Bool
  sens_avail : Bool
  fit_parameters : AcStates → Nat → ℚ
  timeout : AcStates → Int → Int
  num_points : AcStates → Int
  shutter_threshold : ℚ
  no_smooth : Bool
  trans_step : ℚ
  trans_timeout : Int
  paused_fd_recv : Bool
  pending : ReqKind → Nat

/-- Results of the external clightd bus calls a handler invocation may
perform: the return code of the sensor `Capture` call, the ambient
average its reply parses to, and the return code and boolean reply of the
backlight `SetAll` call. -/
structure Env where
  captureRes : Int
  ambient : ℚ
  setAllRes : Int
  setAllOk : Bool

/-- Observable side effects of a handler invocation: external bus calls,
published messages, timer operations, log lines, and invocations of the
device-state callbacks whose bodies are outside the scope of the claims
(curve refitting calls external polynomial-fit code, and the pause/resume
effects of the dimmed/lid callbacks are settled at the
`pause_mod`/`resume_mod` level above). -/
inductive Act
  | callSetAll (pct : ℚ) (is_smooth : Bool) (step : ℚ) (timeout : Int)
  | publishBL (old new : ℚ) (is_smooth : Bool) (step : ℚ) (timeout : Int)
  | publishAmbient (old new : ℚ)
  | publishCaptureReq
  | logClogged
  | setTimeout (sec : Int) (nsec : Int)
  | resetTimer (old new : Int)
  | warnInvalidTimeout
  | ranDimmedCallback
  | ranLidCallback
  | ranCurveCallback (s : AcStates)
  | ranAutocalibCallback (v : Bool)
deriving DecidableEq

/-- `get_current_timeout`: the effective capture timeout — the
`IN_EVENT` slot of the current power state while an event window is
active, the natural daytime bucket's slot otherwise. -/
def get_current_timeout (st : St) : Int :=
  if st.in_event then st.timeout st.ac_state IN_EVENT
  else st.timeout st.ac_state st.day_time

/-- Modelled from the spec: `clamp` from the shared math helpers (not
part of the sources here) saturates a value into a closed interval and is
not a rejecting validator; the call sites pass the bounds as
(value, upper, lower). -/
def clamp (v mx mn : ℚ) : ℚ :=
  if v > mx then mx else if v < mn then mn else v

/-- `set_backlight_level`: issue the `SetAll` backlight call; only when
the call returns 0 and the boolean reply is true, store the new
percentage in `state.current_bl_pct` and publish a `BL_UPD` message
carrying the previous and new percentage and echoing the smoothing
parameters. -/
def set_backlight_level (st : St) (pct : ℚ) (is_smooth : Bool) (step : ℚ)
    (timeout : Int) (env : Env) : St × List Act :=
  if env.setAllRes = 0 ∧ env.setAllOk = true then
    ({ st with current_bl_pct := pct },
      [Act.callSetAll pct is_smooth step timeout,
        Act.publishBL st.current_bl_pct pct is_smooth step timeout])
  else
    (st, [Act.callSetAll pct is_smooth step timeout])

/-- `set_new_backlight`: evaluate the current power state's quadratic
calibration curve `y = a0 + a1 x + a2 x^2`, clamp the result to [0, 1]
and request that backlight level with the configured smoothing. -/
def set_new_backlight (st : St) (perc : ℚ) (env : Env) : St × List Act :=
  let b := st.fit_parameters st.ac_state 0 +
    st.fit_parameters st.ac_state 1 * perc +
    st.fit_parameters st.ac_state 2 * perc ^ 2
  let new_br_pct := clamp b 1 0
  set_backlight_level st new_br_pct (!st.no_smooth) st.trans_step
    st.trans_timeout env

/-- `capture_frames_brightness` plus the `Capture` branch of
`parse_bus_reply`: on a successful call the reply's average becomes
`state.ambient_br` and an `AMBIENT_BR_UPD` message is published; on
failure nothing changes. Returns the call's return code. -/
def capture_frames_brightness (st : St) (env : Env) : Int × St × List Act :=
  if env.captureRes = 0 then
    (0, { st with ambient_br := env.ambient },
      [Act.publishAmbient st.ambient_br env.ambient])
  else
    (env.captureRes, st, [])

/-- The compensation / shutter-threshold / actuation body of `do_capture`
(the block guarded by `!capture_frames_brightness() && !capture_only`):
compute `compensated_br = clamp(ambient - screen_comp, 1, 0)`; at or above
the shutter threshold, map it through the calibration curve at
`compensated_br * (num_points - 1)` and actuate; below it, log a clogged
capture and do nothing. `r` is the capture call's return code and `st1`
the state after the capture call. -/
def capture_pipeline (r : Int) (st1 : St) (capture_only : Bool) (env : Env) :
    St × List Act :=
  if r = 0 ∧ capture_only = false then
    if clamp (st1.ambient_br - st1.screen_comp) 1 0 ≥ st1.shutter_threshold then
      set_new_backlight st1
        (clamp (st1.ambient_br - st1.screen_comp) 1 0 *
          ((st1.num_points st1.ac_state : ℚ) - 1)) env
    else
      (st1, [Act.logClogged])
  else
    (st1, [])

/-- `do_capture`: issue the sensor capture call, run `capture_pipeline`
on its result, then rearm the capture timer to the currently effective
timeout iff `reset_timer`. -/
def do_capture (st : St) (reset_timer capture_only : Bool) (env : Env) :
    St × List Act :=
  let c := capture_frames_brightness st env
  let step2 := capture_pipeline c.1 c.2.1 capture_only env
  let acts3 : List Act :=
    if reset_timer then [Act.setTimeout (get_current_timeout step2.1) 0]
    else []
  (step2.1, c.2.2 ++ step2.2 ++ acts3)

/-- The `SetAll` actuation calls among a list of actions. -/
def isCallSetAll : Act → Bool
  | .callSetAll _ _ _ _ => true
  | _ => false

/-- The published `BL_UPD` messages among a list of actions. -/
def isPublishBL : Act → Bool
  | .publishBL _ _ _ _ _ => true
  | _ => false

/-- The timer operations among a list of actions. -/
def isTimerAct : Act → Bool
  | .setTimeout _ _ => true
  | .resetTimer _ _ => true
  | _ => false

/-- `clamp` saturates into the closed interval between its bounds. -/
lemma clamp_eq_max_min (v mx mn : ℚ) (h : mn ≤ mx) :
    clamp v mx mn = max mn (min mx v) := by
  unfold clamp
  split_ifs with h1 h2
  · rw [min_eq_left (le_of_lt h1), max_eq_right h]
  · rw [min_eq_right (not_lt.mp h1), max_eq_left (le_of_lt h2)]
  · rw [min_eq_right (not_lt.mp h1), max_eq_right (not_lt.mp h2)]

/-- A concrete test state used by the witness theorems: on AC power, day
bucket, inside an event window, display not dimmed, sensor available,
calibration curve y = x/10, timeout table distinguishing every slot. -/
def stT : St :=
  { ambient_br := 1/2
    screen_comp := 0
    current_bl_pct := 3/10
    ac_state := AcStates.ON_AC
    day_time := DAY
    in_event := true
    display_state := false
    sens_avail := true
    fit_parameters := fun _ i => if i = 1 then 1/10 else 0
    timeout := fun s d => if s = AcStates.ON_AC then 300 + d else 45 + d
    num_points := fun _ => 11
    shutter_threshold := 1/10
    no_smooth := false
    trans_step := 1/20
    trans_timeout := 30
    paused_fd_recv := false
    pending := fun _ => 0 }

/-- A test environment in which every external call succeeds. -/
def envOk : Env :=
  { captureRes := 0, ambient := 1/4, setAllRes := 0, setAllOk := true }

/-- A test environment in which every external call fails. -/
def envFail : Env :=
  { captureRes := -1, ambient := 1/4, setAllRes := -1, setAllOk := false }

/-- C3: the effective timeout is the `IN_EVENT` slot of the current power
state whenever an event window is active, and the natural daytime
bucket's slot otherwise; hence switching the daytime bucket during an
event window leaves the effective timeout unchanged, and ending the event
window recomputes it from the daytime bucket current at that moment. -/
theorem backlight_C3 (st : St) (d : Int) (hev : st.in_event = true) :
    get_current_timeout st = st.timeout st.ac_state IN_EVENT
    ∧ get_current_timeout { st with day_time := d } = get_current_timeout st
    ∧ get_current_timeout { st with day_time := d, in_event := false } =
        st.timeout st.ac_state d
    ∧ get_current_timeout { st with in_event := false } =
        st.timeout st.ac_state st.day_time := by
  refine ⟨?_, ?_, ?_, ?_⟩ <;> simp [get_current_timeout, hev]

/-- Witness for `backlight_C3` at the concrete state `stT` (event window
active): the effective timeout is the IN_EVENT slot 302, and switching
the daytime bucket to NIGHT does not change it. -/
theorem backlight_C3_witness :
    get_current_timeout stT = 302
    ∧ get_current_timeout { stT with day_time := NIGHT } =
        get_current_timeout stT
    ∧ get_current_timeout { stT with day_time := NIGHT, in_event := false } =
        301 := by
  have h := backlight_C3 stT NIGHT rfl
  refine ⟨?_, h.2.1, ?_⟩
  · rw [h.1]; rfl
  · rw [h.2.2.1]; rfl

/-- C4: `set_backlight_level` leaves `state.current_bl_pct` unchanged and
publishes no `BL_UPD` message when the external `SetAll` call fails
(non-zero return or false reply); on success it stores the new
percentage and publishes exactly one `BL_UPD` message carrying the old
percentage, the new percentage and the echoed smoothing parameters. -/
theorem backlight_C4 (st : St) (pct : ℚ) (sm : Bool) (step : ℚ) (tmo : Int)
    (env : Env) :
    (¬(env.setAllRes = 0 ∧ env.setAllOk = true) →
      (set_backlight_level st pct sm step tmo env).1 = st ∧
      List.filter isPublishBL (set_backlight_level st pct sm step tmo env).2 = [])
    ∧ ((env.setAllRes = 0 ∧ env.setAllOk = true) →
      (set_backlight_level st pct sm step tmo env).1.current_bl_pct = pct ∧
      List.filter isPublishBL (set_backlight_level st pct sm step tmo env).2 =
        [Act.publishBL st.current_bl_pct pct sm step tmo]) := by
  unfold set_backlight_level
  constructor
  · intro h
    rw [if_neg h]
    exact ⟨rfl, rfl⟩
  · intro h
    rw [if_pos h]
    exact ⟨rfl, rfl⟩

/-- Witness for `backlight_C4`: at `stT` with a succeeding `SetAll` call
the stored percentage becomes 7/10 and exactly the one expected `BL_UPD`
is published; with a failing call the state is unchanged and nothing is
published. -/
theorem backlight_C4_witness :
    ((set_backlight_level stT (7/10) true (1/20) 30 envOk).1.current_bl_pct =
      7/10
    ∧ List.filter isPublishBL
        (set_backlight_level stT (7/10) true (1/20) 30 envOk).2 =
      [Act.publishBL (3/10) (7/10) true (1/20) 30])
    ∧ ((set_backlight_level stT (7/10) true (1/20) 30 envFail).1 = stT
    ∧ List.filter isPublishBL
        (set_backlight_level stT (7/10) true (1/20) 30 envFail).2 = []) := by
  constructor
  · exact (backlight_C4 stT (7/10) true (1/20) 30 envOk).2 (by decide)
  · exact (backlight_C4 stT (7/10) true (1/20) 30 envFail).1 (by decide)

lemma capture_ok (st : St) (env : Env) (h : env.captureRes = 0) :
    capture_frames_brightness st env =
      (0, { st with ambient_br := env.ambient },
        [Act.publishAmbient st.ambient_br env.ambient]) := by
  unfold capture_frames_brightness
  rw [if_pos h]

lemma capture_fail (st : St) (env : Env) (h : env.captureRes ≠ 0) :
    capture_frames_brightness st env = (env.captureRes, st, []) := by
  unfold capture_frames_brightness
  rw [if_neg h]

/-- Splitting `do_capture` into its capture call, pipeline body and timer
rearm. -/
lemma do_capture_parts (st : St) (rt co : Bool) (env : Env) :
    do_capture st rt co env =
      ((capture_pipeline (capture_frames_brightness st env).1
          (capture_frames_brightness st env).2.1 co env).1,
        (capture_frames_brightness st env).2.2 ++
          (capture_pipeline (capture_frames_brightness st env).1
            (capture_frames_brightness st env).2.1 co env).2 ++
          (if rt then
            [Act.setTimeout
              (get_current_timeout
                (capture_pipeline (capture_frames_brightness st env).1
                  (capture_frames_brightness st env).2.1 co env).1) 0]
          else [])) := rfl

lemma capture_pipeline_fail (r : Int) (st1 : St) (co : Bool) (env : Env)
    (h : r ≠ 0) : capture_pipeline r st1 co env = (st1, []) := by
  unfold capture_pipeline
  rw [if_neg (by simp [h])]

lemma capture_pipeline_only (r : Int) (st1 : St) (env : Env) :
    capture_pipeline r st1 true env = (st1, []) := by
  unfold capture_pipeline
  rw [if_neg (by simp)]

lemma capture_pipeline_ge (st1 : St) (env : Env)
    (hge : clamp (st1.ambient_br - st1.screen_comp) 1 0 ≥
      st1.shutter_threshold) :
    capture_pipeline 0 st1 false env =
      set_new_backlight st1
        (clamp (st1.ambient_br - st1.screen_comp) 1 0 *
          ((st1.num_points st1.ac_state : ℚ) - 1)) env := by
  unfold capture_pipeline
  rw [if_pos ⟨rfl, rfl⟩]
  exact if_pos hge

lemma capture_pipeline_lt (st1 : St) (env : Env)
    (hlt : ¬ clamp (st1.ambient_br - st1.screen_comp) 1 0 ≥
      st1.shutter_threshold) :
    capture_pipeline 0 st1 false env = (st1, [Act.logClogged]) := by
  unfold capture_pipeline
  rw [if_pos ⟨rfl, rfl⟩]
  exact if_neg hlt

lemma gct_set_backlight_level (st : St) (pct : ℚ) (sm : Bool) (step : ℚ)
    (tmo : Int) (env : Env) :
    get_current_timeout (set_backlight_level st pct sm step tmo env).1 =
      get_current_timeout st := by
  unfold set_backlight_level
  split_ifs <;> rfl

lemma gct_set_new_backlight (st : St) (perc : ℚ) (env : Env) :
    get_current_timeout (set_new_backlight st perc env).1 =
      get_current_timeout st :=
  gct_set_backlight_level st _ _ _ _ env

lemma gct_capture_pipeline (r : Int) (st1 : St) (co : Bool) (env : Env) :
    get_current_timeout (capture_pipeline r st1 co env).1 =
      get_current_timeout st1 := by
  unfold capture_pipeline
  split_ifs
  · exact gct_set_new_backlight st1 _ env
  · rfl
  · rfl

lemma filter_setAll_set_new_backlight (st : St) (perc : ℚ) (env : Env) :
    List.filter isCallSetAll (set_new_backlight st perc env).2 =
      [Act.callSetAll
        (clamp (st.fit_parameters st.ac_state 0 +
          st.fit_parameters st.ac_state 1 * perc +
          st.fit_parameters st.ac_state 2 * perc ^ 2) 1 0)
        (!st.no_smooth) st.trans_step st.trans_timeout] := by
  unfold set_new_backlight set_backlight_level
  split_ifs <;> rfl

lemma filter_timer_set_new_backlight (st : St) (perc : ℚ) (env : Env) :
    List.filter isTimerAct (set_new_backlight st perc env).2 = [] := by
  unfold set_new_backlight set_backlight_level
  split_ifs <;> rfl

lemma filter_timer_capture_pipeline (r : Int) (st1 : St) (co : Bool)
    (env : Env) :
    List.filter isTimerAct (capture_pipeline r st1 co env).2 = [] := by
  unfold capture_pipeline
  split_ifs
  · exact filter_timer_set_new_backlight st1 _ env
  · rfl
  · rfl

lemma filter_timer_capture_frames (st : St) (env : Env) :
    List.filter isTimerAct (capture_frames_brightness st env).2.2 = [] := by
  unfold capture_frames_brightness
  split_ifs <;> rfl

/-- C5: on a successful capture with `capture_only = false`, the
compensated brightness is the ambient reading minus the screen
compensation saturated into [0, 1]; at or above the shutter threshold
exactly one backlight actuation call is issued, whose target is the
current power state's quadratic curve evaluated at
`compensated * (num_points - 1)` and clamped to [0, 1], with the
configured smoothing parameters; below the threshold the capture is
logged as clogged and no actuation call is issued. -/
theorem backlight_C5 (st : St) (rt : Bool) (env : Env)
    (h : env.captureRes = 0) :
    clamp (env.ambient - st.screen_comp) 1 0 =
      max 0 (min 1 (env.ambient - st.screen_comp))
    ∧ (clamp (env.ambient - st.screen_comp) 1 0 ≥ st.shutter_threshold →
        List.filter isCallSetAll (do_capture st rt false env).2 =
          [Act.callSetAll
            (clamp (st.fit_parameters st.ac_state 0 +
              st.fit_parameters st.ac_state 1 *
                (clamp (env.ambient - st.screen_comp) 1 0 *
                  ((st.num_points st.ac_state : ℚ) - 1)) +
              st.fit_parameters st.ac_state 2 *
                (clamp (env.ambient - st.screen_comp) 1 0 *
                  ((st.num_points st.ac_state : ℚ) - 1)) ^ 2) 1 0)
            (!st.no_smooth) st.trans_step st.trans_timeout])
    ∧ (¬ clamp (env.ambient - st.screen_comp) 1 0 ≥ st.shutter_threshold →
        List.filter isCallSetAll (do_capture st rt false env).2 = []
        ∧ Act.logClogged ∈ (do_capture st rt false env).2) := by
  refine ⟨clamp_eq_max_min _ 1 0 (by norm_num), ?_, ?_⟩
  · intro hge
    rw [do_capture_parts, capture_ok st env h]
    simp only [List.filter_append]
    rw [capture_pipeline_ge { st with ambient_br := env.ambient } env hge,
      filter_setAll_set_new_backlight]
    cases rt <;> rfl
  · intro hlt
    rw [do_capture_parts, capture_ok st env h]
    constructor
    · simp only [List.filter_append]
      rw [capture_pipeline_lt { st with ambient_br := env.ambient } env hlt]
      cases rt <;> rfl
    · rw [capture_pipeline_lt { st with ambient_br := env.ambient } env hlt]
      simp

/-- Witness for `backlight_C5` at `stT` with a successful capture reading
0.25: the compensated brightness is 0.25, above the threshold 0.1, and
the single actuation call targets curve(0.25 * 10) = 0.25 clamped, i.e.
pct 1/4. -/
theorem backlight_C5_witness :
    clamp (envOk.ambient - stT.screen_comp) 1 0 ≥ stT.shutter_threshold
    ∧ List.filter isCallSetAll (do_capture stT true false envOk).2 =
        [Act.callSetAll (1/4) true (1/20) 30] := by
  refine ⟨by norm_num [clamp, stT, envOk], ?_⟩
  rw [(backlight_C5 stT true envOk rfl).2.1
    (by norm_num [clamp, stT, envOk])]
  norm_num [clamp, stT, envOk]

/-- C6: the capture timer is rearmed, to the currently effective timeout
with no initial jitter, exactly when `reset_timer` is true — regardless
of whether the capture call succeeded, the reading was below the shutter
threshold, or actuation happened; and a failed capture call aborts the
pipeline, leaving the state untouched with no action other than the
optional timer rearm. -/
theorem backlight_C6 (st : St) (rt co : Bool) (env : Env) :
    List.filter isTimerAct (do_capture st rt co env).2 =
      (if rt then [Act.setTimeout (get_current_timeout st) 0] else [])
    ∧ (env.captureRes ≠ 0 →
        (do_capture st rt co env).1 = st
        ∧ (do_capture st rt co env).2 =
          (if rt then [Act.setTimeout (get_current_timeout st) 0] else [])) := by
  constructor
  · rw [do_capture_parts]
    simp only [List.filter_append]
    rw [filter_timer_capture_frames, filter_timer_capture_pipeline,
      gct_capture_pipeline]
    have hgct : get_current_timeout (capture_frames_brightness st env).2.1 =
        get_current_timeout st := by
      unfold capture_frames_brightness
      split_ifs <;> rfl
    rw [hgct]
    cases rt <;> rfl
  · intro h
    rw [do_capture_parts, capture_fail st env h,
      capture_pipeline_fail env.captureRes st co env h]
    exact ⟨rfl, by cases rt <;> rfl⟩

/-- Witness for `backlight_C6`: with a failing capture call and
`reset_timer = true` at `stT`, the state is unchanged and the only action
is the rearm to the effective timeout 302 with zero nanoseconds. -/
theorem backlight_C6_witness :
    (do_capture stT true false envFail).1 = stT
    ∧ (do_capture stT true false envFail).2 = [Act.setTimeout 302 0] := by
  have h := (backlight_C6 stT true false envFail).2 (by decide)
  refine ⟨h.1, ?_⟩
  rw [h.2]
  rfl

/- ------------------------------------------------------------------
Request freshness, timeout requests, Active / Paused dispatch
------------------------------------------------------------------- -/

/-- Payload of a `BL_TO_REQ` timeout request (`timeout_upd`): target
power state, target daytime slot, and the new timeout value. The daytime
field arrives as a plain integer and is range-validated by
`interface_timeout_callback`. -/
structure TimeoutUpd where
  state : AcStates
  daytime : Int
  new : Int
deriving DecidableEq

/-- Modelled from the spec: `VALIDATE_REQ` (defined in a header not part
of the sources here) accepts a request only if it is still the most
current outstanding request of its kind; requests carry an identity
token, and `St.pending` records the token of the most current request of
each kind. -/
def VALIDATE_REQ (st : St) (k : ReqKind) (gen : Nat) : Bool :=
  st.pending k == gen

/-- Modelled from the spec: publishing a request of kind `k` makes it the
most current outstanding request of that kind; returns the updated state
and the fresh token the published message carries. -/
def publish_req (st : St) (k : ReqKind) : St × Nat :=
  ({ st with pending := fun j => if j = k then st.pending k + 1 else st.pending j },
    st.pending k + 1)

/-- `interface_timeout_callback`: reject (with a warning) any request
whose daytime is outside `DAY .. SIZE_STATES`; otherwise write the
requested timeout-table entry and, when the written slot is the one
currently in effect, rearm the timer from the old to the new effective
timeout. -/
def interface_timeout_callback (st : St) (up : TimeoutUpd) :
    St × List Act :=
  if DAY ≤ up.daytime ∧ up.daytime ≤ SIZE_STATES then
    let old := get_current_timeout st
    let st1 : St :=
      { st with timeout := fun s d =>
          if s = up.state ∧ d = up.daytime then up.new else st.timeout s d }
    if up.state = st.ac_state ∧
        (up.daytime = st.day_time ∨ (st.in_event ∧ up.daytime = IN_EVENT)) then
      (st1, [Act.resetTimer old (get_current_timeout st1)])
    else
      (st1, [])
  else
    (st, [Act.warnInvalidTimeout])

/-- `time_callback`: on a daytime change the old effective timeout is the
slot of the previous bucket; on an event-window change it is the bucket
slot if an event just began and the `IN_EVENT` slot if one just ended
(the shared state already carries the new values); either way the timer
is rearmed from the old to the new effective timeout. -/
def time_callback (st : St) (old_val : Int) (is_event : Bool) :
    St × List Act :=
  let old_timeout :=
    if is_event = false then st.timeout st.ac_state old_val
    else st.timeout st.ac_state (if st.in_event then st.day_time else IN_EVENT)
  (st, [Act.resetTimer old_timeout (get_current_timeout st)])

/-- `upower_callback`: refresh the timer after a power-source change
(zero seconds, with a one-nanosecond kick only if the effective timeout
is positive). -/
def upower_callback (st : St) : St × List Act :=
  (st, [Act.setTimeout 0 (if 0 < get_current_timeout st then 1 else 0)])

/-- The messages the two post-init behaviors dispatch on, with their
payloads; request messages carry their freshness token. -/
inductive Msg
  | FD_UPD
  | UPOWER_UPD
  | DISPLAY_UPD
  | DAYTIME_UPD (old : Int)
  | IN_EVENT_UPD (old : Int)
  | LID_UPD
  | BL_TO_REQ (gen : Nat) (up : TimeoutUpd)
  | CAPTURE_REQ (gen : Nat) (reset_timer capture_only : Bool)
  | CURVE_REQ (gen : Nat) (s : AcStates)
  | NO_AUTOCALIB_REQ (gen : Nat) (v : Bool)
  | BL_REQ (gen : Nat) (pct : ℚ) (is_smooth : Bool) (step : ℚ) (timeout : Int)

/-- `receive`, the Active behavior: timer firings publish a capture
request; device-state changes run their callbacks; request messages are
handled only if they pass `VALIDATE_REQ`, and are dropped silently
otherwise. The bodies of the dimmed/lid/curve/autocalib callbacks are
represented by their invocation actions (see `Act`). -/
def receive (st : St) (m : Msg) (env : Env) : St × List Act :=
  match m with
  | .FD_UPD => (st, [Act.publishCaptureReq])
  | .UPOWER_UPD => upower_callback st
  | .DISPLAY_UPD => (st, [Act.ranDimmedCallback])
  | .DAYTIME_UPD old => time_callback st old false
  | .IN_EVENT_UPD old => time_callback st old true
  | .LID_UPD => (st, [Act.ranLidCallback])
  | .BL_TO_REQ gen up =>
      if VALIDATE_REQ st ReqKind.bl_to gen then
        interface_timeout_callback st up
      else (st, [])
  | .CAPTURE_REQ gen rt co =>
      if VALIDATE_REQ st ReqKind.capture gen then do_capture st rt co env
      else (st, [])
  | .CURVE_REQ gen s =>
      if VALIDATE_REQ st ReqKind.curve gen then
        (st, [Act.ranCurveCallback s])
      else (st, [])
  | .NO_AUTOCALIB_REQ gen v =>
      if VALIDATE_REQ st ReqKind.no_autocalib gen then
        (st, [Act.ranAutocalibCallback v])
      else (st, [])
  | .BL_REQ gen pct sm step tmo =>
      if VALIDATE_REQ st ReqKind.bl gen then
        set_backlight_level st pct sm step tmo env
      else (st, [])

/-- `receive_paused`, the Paused behavior: like `receive` except that a
timer firing performs a one-shot minimal rearm (deduplicated by
`paused_fd_recv`), a `CAPTURE_REQ` additionally requires the display not
dimmed and the sensor available, and a `BL_REQ` additionally requires the
display not dimmed. -/
def receive_paused (st : St) (m : Msg) (env : Env) : St × List Act :=
  match m with
  | .FD_UPD =>
      if st.paused_fd_recv = false then
        ({ st with paused_fd_recv := true }, [Act.setTimeout 0 1])
      else (st, [])
  | .UPOWER_UPD => upower_callback st
  | .DISPLAY_UPD => (st, [Act.ranDimmedCallback])
  | .DAYTIME_UPD old => time_callback st old false
  | .IN_EVENT_UPD old => time_callback st old true
  | .LID_UPD => (st, [Act.ranLidCallback])
  | .BL_TO_REQ gen up =>
      if VALIDATE_REQ st ReqKind.bl_to gen then
        interface_timeout_callback st up
      else (st, [])
  | .CAPTURE_REQ gen rt co =>
      if VALIDATE_REQ st ReqKind.capture gen && !st.display_state &&
          st.sens_avail then
        do_capture st rt co env
      else (st, [])
  | .CURVE_REQ gen s =>
      if VALIDATE_REQ st ReqKind.curve gen then
        (st, [Act.ranCurveCallback s])
      else (st, [])
  | .NO_AUTOCALIB_REQ gen v =>
      if VALIDATE_REQ st ReqKind.no_autocalib gen then
        (st, [Act.ranAutocalibCallback v])
      else (st, [])
  | .BL_REQ gen pct sm step tmo =>
      if VALIDATE_REQ st ReqKind.bl gen && !st.display_state then
        set_backlight_level st pct sm step tmo env
      else (st, [])

/-- Counterexample to C7 as stated: in the Paused behavior with the
display not dimmed but the sensor unavailable, a fresh `CAPTURE_REQ` is
rejected with no effect (whereas acting on it would at least append the
capture pipeline's actions, which are non-empty here). `receive_paused`
requires `state.sens_avail` in addition to the display check, so
"rejected only while the display is dimmed" fails. -/
theorem backlight_C7_cex :
    VALIDATE_REQ { stT with sens_avail := false } ReqKind.capture 0 = true
    ∧ ({ stT with sens_avail := false } : St).display_state = false
    ∧ receive_paused { stT with sens_avail := false }
        (Msg.CAPTURE_REQ 0 true false) envOk =
      ({ stT with sens_avail := false }, [])
    ∧ (do_capture { stT with sens_avail := false } true false envOk).2 ≠
        [] := by
  refine ⟨rfl, rfl, rfl, ?_⟩
  rw [do_capture_parts, capture_ok { stT with sens_avail := false } envOk rfl]
  simp

/-- C7 (amended): in the Paused behavior, a fresh `CAPTURE_REQ` is acted
upon iff the display is not dimmed AND the sensor is available; a fresh
`BL_REQ` is acted upon iff the display is not dimmed; fresh
timeout/curve/autocalib requests and all device-state change messages
continue to be handled while paused. -/
theorem backlight_C7_amended (st : St) (env : Env) (g : Nat) (rt co : Bool)
    (pct : ℚ) (sm : Bool) (step : ℚ) (tmo : Int) (up : TimeoutUpd)
    (s : AcStates) (v : Bool) (old : Int) :
    (VALIDATE_REQ st ReqKind.capture g = true → st.display_state = false →
      st.sens_avail = true →
      receive_paused st (Msg.CAPTURE_REQ g rt co) env =
        do_capture st rt co env)
    ∧ (st.display_state = true ∨ st.sens_avail = false ∨
        VALIDATE_REQ st ReqKind.capture g = false →
      receive_paused st (Msg.CAPTURE_REQ g rt co) env = (st, []))
    ∧ (VALIDATE_REQ st ReqKind.bl g = true → st.display_state = false →
      receive_paused st (Msg.BL_REQ g pct sm step tmo) env =
        set_backlight_level st pct sm step tmo env)
    ∧ (st.display_state = true ∨ VALIDATE_REQ st ReqKind.bl g = false →
      receive_paused st (Msg.BL_REQ g pct sm step tmo) env = (st, []))
    ∧ (VALIDATE_REQ st ReqKind.bl_to g = true →
      receive_paused st (Msg.BL_TO_REQ g up) env =
        interface_timeout_callback st up)
    ∧ (VALIDATE_REQ st ReqKind.curve g = true →
      receive_paused st (Msg.CURVE_REQ g s) env =
        (st, [Act.ranCurveCallback s]))
    ∧ (VALIDATE_REQ st ReqKind.no_autocalib g = true →
      receive_paused st (Msg.NO_AUTOCALIB_REQ g v) env =
        (st, [Act.ranAutocalibCallback v]))
    ∧ receive_paused st Msg.UPOWER_UPD env = upower_callback st
    ∧ receive_paused st Msg.DISPLAY_UPD env = (st, [Act.ranDimmedCallback])
    ∧ receive_paused st (Msg.DAYTIME_UPD old) env = time_callback st old false
    ∧ receive_paused st (Msg.IN_EVENT_UPD old) env = time_callback st old true
    ∧ receive_paused st Msg.LID_UPD env = (st, [Act.ranLidCallback]) := by
  refine ⟨?_, ?_, ?_, ?_, ?_, ?_, ?_, rfl, rfl, rfl, rfl, rfl⟩
  · intro h1 h2 h3
    simp [receive_paused, h1, h2, h3]
  · intro h
    rcases h with h | h | h <;> simp [receive_paused, h]
  · intro h1 h2
    simp [receive_paused, h1, h2]
  · intro h
    rcases h with h | h <;> simp [receive_paused, h]
  · intro h
    simp [receive_paused, h]
  · intro h
    simp [receive_paused, h]
  · intro h
    simp [receive_paused, h]

/-- Witness for `backlight_C7_amended` at `stT` (display not dimmed,
sensor available, all tokens fresh): both a capture request and a
backlight-set request are acted upon while paused. -/
theorem backlight_C7_witness :
    receive_paused stT (Msg.CAPTURE_REQ 0 true false) envOk =
      do_capture stT true false envOk
    ∧ receive_paused stT (Msg.BL_REQ 0 (7/10) true (1/20) 30) envOk =
      set_backlight_level stT (7/10) true (1/20) 30 envOk := by
  have h := backlight_C7_amended stT envOk 0 true false (7/10) true (1/20) 30
    ⟨AcStates.ON_AC, 0, 0⟩ AcStates.ON_AC false 0
  exact ⟨h.1 rfl rfl rfl, h.2.2.1 rfl rfl⟩

/-- C8: in both the Active and the Paused behavior, a request-type
message that fails `VALIDATE_REQ` (superseded by a newer request of its
kind) is dropped silently with no state change and no action; and for two
`BL_REQ` messages published back-to-back before either is handled, the
first (now stale) one has no effect while the second one's percentage is
what ends up in `state.current_bl_pct` (given a succeeding `SetAll`
call). -/
theorem backlight_C8 (st : St) (env : Env) (g : Nat) (rt co : Bool)
    (pct pct1 pct2 : ℚ) (sm : Bool) (step : ℚ) (tmo : Int) (up : TimeoutUpd)
    (s : AcStates) (v : Bool)
    (henv : env.setAllRes = 0 ∧ env.setAllOk = true) :
    (VALIDATE_REQ st ReqKind.bl_to g = false →
      receive st (Msg.BL_TO_REQ g up) env = (st, []))
    ∧ (VALIDATE_REQ st ReqKind.capture g = false →
      receive st (Msg.CAPTURE_REQ g rt co) env = (st, []))
    ∧ (VALIDATE_REQ st ReqKind.curve g = false →
      receive st (Msg.CURVE_REQ g s) env = (st, []))
    ∧ (VALIDATE_REQ st ReqKind.no_autocalib g = false →
      receive st (Msg.NO_AUTOCALIB_REQ g v) env = (st, []))
    ∧ (VALIDATE_REQ st ReqKind.bl g = false →
      receive st (Msg.BL_REQ g pct sm step tmo) env = (st, []))
    ∧ (VALIDATE_REQ st ReqKind.bl_to g = false →
      receive_paused st (Msg.BL_TO_REQ g up) env = (st, []))
    ∧ (VALIDATE_REQ st ReqKind.capture g = false →
      receive_paused st (Msg.CAPTURE_REQ g rt co) env = (st, []))
    ∧ (VALIDATE_REQ st ReqKind.curve g = false →
      receive_paused st (Msg.CURVE_REQ g s) env = (st, []))
    ∧ (VALIDATE_REQ st ReqKind.no_autocalib g = false →
      receive_paused st (Msg.NO_AUTOCALIB_REQ g v) env = (st, []))
    ∧ (VALIDATE_REQ st ReqKind.bl g = false →
      receive_paused st (Msg.BL_REQ g pct sm step tmo) env = (st, []))
    ∧ (receive (publish_req (publish_req st ReqKind.bl).1 ReqKind.bl).1
        (Msg.BL_REQ (publish_req st ReqKind.bl).2 pct1 sm step tmo) env =
      ((publish_req (publish_req st ReqKind.bl).1 ReqKind.bl).1, []))
    ∧ ((receive (publish_req (publish_req st ReqKind.bl).1 ReqKind.bl).1
        (Msg.BL_REQ
          (publish_req (publish_req st ReqKind.bl).1 ReqKind.bl).2
          pct2 sm step tmo) env).1.current_bl_pct = pct2) := by
  have hp : (publish_req (publish_req st ReqKind.bl).1 ReqKind.bl).1.pending
      ReqKind.bl = st.pending ReqKind.bl + 2 := by
    simp [publish_req]
  have hstale : VALIDATE_REQ
      (publish_req (publish_req st ReqKind.bl).1 ReqKind.bl).1 ReqKind.bl
      (publish_req st ReqKind.bl).2 = false := by
    unfold VALIDATE_REQ
    rw [hp]
    have hg1 : (publish_req st ReqKind.bl).2 = st.pending ReqKind.bl + 1 := rfl
    rw [hg1, beq_eq_false_iff_ne]
    omega
  have hfresh : VALIDATE_REQ
      (publish_req (publish_req st ReqKind.bl).1 ReqKind.bl).1 ReqKind.bl
      (publish_req (publish_req st ReqKind.bl).1 ReqKind.bl).2 = true := by
    unfold VALIDATE_REQ
    rw [hp]
    have hg2 : (publish_req (publish_req st ReqKind.bl).1 ReqKind.bl).2 =
        st.pending ReqKind.bl + 2 := by
      simp [publish_req]
    rw [hg2]
    simp
  refine ⟨?_, ?_, ?_, ?_, ?_, ?_, ?_, ?_, ?_, ?_, ?_, ?_⟩
  · intro h; simp [receive, h]
  · intro h; simp [receive, h]
  · intro h; simp [receive, h]
  · intro h; simp [receive, h]
  · intro h; simp [receive, h]
  · intro h; simp [receive_paused, h]
  · intro h; simp [receive_paused, h]
  · intro h; simp [receive_paused, h]
  · intro h; simp [receive_paused, h]
  · intro h; simp [receive_paused, h]
  · simp [receive, hstale]
  · simp [receive, hfresh, set_backlight_level, henv.1, henv.2]

/-- Witness for `backlight_C8`: concrete back-to-back `BL_REQ` at `stT`
with a succeeding `SetAll` call — the stale first request is dropped, the
second request's percentage 9/10 lands in `current_bl_pct`. -/
theorem backlight_C8_witness :
    receive (publish_req (publish_req stT ReqKind.bl).1 ReqKind.bl).1
        (Msg.BL_REQ (publish_req stT ReqKind.bl).2 (2/10) true (1/20) 30)
        envOk =
      ((publish_req (publish_req stT ReqKind.bl).1 ReqKind.bl).1, [])
    ∧ (receive (publish_req (publish_req stT ReqKind.bl).1 ReqKind.bl).1
        (Msg.BL_REQ (publish_req (publish_req stT ReqKind.bl).1 ReqKind.bl).2
          (9/10) true (1/20) 30) envOk).1.current_bl_pct = 9/10 := by
  have h := backlight_C8 stT envOk 0 true false 0 (2/10) (9/10) true (1/20)
    30 ⟨AcStates.ON_AC, 0, 0⟩ AcStates.ON_AC false (by decide)
  exact ⟨h.2.2.2.2.2.2.2.2.2.2.1, h.2.2.2.2.2.2.2.2.2.2.2⟩

/-- C9: `interface_timeout_callback` rejects (warning only, no table
write, no timer action) any request whose daytime lies outside
`DAY .. SIZE_STATES`; under that validation the daytime index is within
the `SIZE_STATES + 1` per-power-state slots of the timeout table, and the
callback writes exactly the requested entry, leaving every other entry
unchanged. -/
theorem backlight_C9 (st : St) (up : TimeoutUpd) :
    (¬(DAY ≤ up.daytime ∧ up.daytime ≤ SIZE_STATES) →
      interface_timeout_callback st up = (st, [Act.warnInvalidTimeout]))
    ∧ (DAY ≤ up.daytime → up.daytime ≤ SIZE_STATES →
      (0 ≤ up.daytime ∧ up.daytime < SIZE_STATES + 1)
      ∧ (interface_timeout_callback st up).1.timeout up.state up.daytime =
          up.new
      ∧ (∀ s d, ¬(s = up.state ∧ d = up.daytime) →
          (interface_timeout_callback st up).1.timeout s d =
            st.timeout s d)) := by
  constructor
  · intro h
    simp only [interface_timeout_callback]
    rw [if_neg h]
  · intro h1 h2
    refine ⟨⟨h1, by omega⟩, ?_, ?_⟩
    · simp only [interface_timeout_callback]
      rw [if_pos ⟨h1, h2⟩]
      split_ifs <;> simp
    · intro s d hne
      simp only [interface_timeout_callback]
      rw [if_pos ⟨h1, h2⟩]
      split_ifs <;> simp [if_neg hne]

/-- Witness for `backlight_C9` at `stT`: a valid request writing 77 into
the battery IN_EVENT slot changes exactly that entry (the AC IN_EVENT
slot still reads 302), while a request with daytime 3 is rejected
unchanged. -/
theorem backlight_C9_witness :
    (interface_timeout_callback stT
        ⟨AcStates.ON_BATTERY, 2, 77⟩).1.timeout AcStates.ON_BATTERY 2 = 77
    ∧ (interface_timeout_callback stT
        ⟨AcStates.ON_BATTERY, 2, 77⟩).1.timeout AcStates.ON_AC 2 = 302
    ∧ interface_timeout_callback stT ⟨AcStates.ON_BATTERY, 3, 77⟩ =
        (stT, [Act.warnInvalidTimeout]) := by
  have h := (backlight_C9 stT ⟨AcStates.ON_BATTERY, 2, 77⟩).2 (by decide)
    (by decide)
  refine ⟨h.2.1, ?_, ?_⟩
  · rw [h.2.2 AcStates.ON_AC 2 (by simp)]
    rfl
  · exact (backlight_C9 stT ⟨AcStates.ON_BATTERY, 3, 77⟩).1 (by decide)

/- ------------------------------------------------------------------
Legacy actuation client (clight/src/brightness.c, set_brightness)
------------------------------------------------------------------- -/

/-- The `struct brightness` of the legacy client: the current, maximum
and previous raw device levels. -/
structure Brightness where
  current : Int
  max : Int
  old : Int
deriving DecidableEq

/-- Results of the external calls `set_brightness` makes: the return
code of the `setbrightness` method call, the return code of parsing its
reply, and the integer level the reply carries when parsed. -/
structure BrEnv where
  callRes : Int
  parseRes : Int
  reply : Int
deriving DecidableEq

/-- The C cast `(int) q` of a double: truncation toward zero, i.e.
`Int.tdiv` of the rational's numerator by its denominator. -/
def ratTrunc (q : ℚ) : Int := q.num.tdiv q.den

/-- Truncation toward zero is the floor of non-negative values and the
ceiling of negative ones. -/
lemma ratTrunc_eq (q : ℚ) : ratTrunc q = if 0 ≤ q then ⌊q⌋ else ⌈q⌉ := by
  unfold ratTrunc
  split_ifs with h
  · rw [Rat.floor_def, Int.tdiv_eq_ediv (Rat.num_nonneg.mpr h) (by positivity)]
  · have hq : 0 ≤ -q := by linarith [lt_of_not_le h]
    have h2 : (-q.num).tdiv q.den = ⌊-q⌋ := by
      rw [Rat.floor_def, Rat.neg_num, Rat.neg_den,
        Int.tdiv_eq_ediv (by rw [← Rat.neg_num]; exact Rat.num_nonneg.mpr hq)
          (by positivity)]
    have h3 : q.num.tdiv q.den = -((-q.num).tdiv q.den) := by
      rw [Int.neg_tdiv, neg_neg]
    rw [h3, h2, Int.floor_neg, neg_neg]

/-- Result of one `set_brightness` call: the brightness record, the
`quit` flag, the returned delta, and the raw level passed to the external
`setbrightness` call. -/
structure SetBrightnessResult where
  br : Brightness
  quitFlag : Bool
  ret : ℚ
  level : Int
deriving DecidableEq

/-- `set_brightness(perc)`: remember the previous level, request level
`(int)(max * perc)` from the external service, store the level the reply
reports, and return `(current - old) / max`; on a failed call or an
unparseable reply set the quit flag, leave the stored level unchanged
(making the return 0). -/
def set_brightness (br : Brightness) (quitFlag : Bool) (perc : ℚ)
    (env : BrEnv) : SetBrightnessResult :=
  let level := ratTrunc ((br.max : ℚ) * perc)
  let br0 : Brightness := { br with old := br.current }
  if env.callRes < 0 then
    { br := br0, quitFlag := true,
      ret := ((br0.current : ℚ) - (br0.old : ℚ)) / (br0.max : ℚ),
      level := level }
  else if env.parseRes < 0 then
    { br := br0, quitFlag := true,
      ret := ((br0.current : ℚ) - (br0.old : ℚ)) / (br0.max : ℚ),
      level := level }
  else
    { br := { br0 with current := env.reply }, quitFlag := quitFlag,
      ret := ((env.reply : ℚ) - (br0.old : ℚ)) / (br0.max : ℚ),
      level := level }

/-- C10: `set_brightness` requests the truncated integer `max * perc`
from the device; it returns `(current - old) / max` where `current` is
the level reported back by the service (not the requested level); and on
a failed call or unparseable reply it leaves the stored current level
unchanged, sets the quit flag, and returns 0. -/
theorem clight_C10 (br : Brightness) (q0 : Bool) (perc : ℚ) (env : BrEnv) :
    ((set_brightness br q0 perc env).level = ratTrunc ((br.max : ℚ) * perc)
      ∧ ratTrunc ((br.max : ℚ) * perc) =
        (if 0 ≤ (br.max : ℚ) * perc then ⌊(br.max : ℚ) * perc⌋
         else ⌈(br.max : ℚ) * perc⌉))
    ∧ (env.callRes < 0 →
        (set_brightness br q0 perc env).br.current = br.current
        ∧ (set_brightness br q0 perc env).quitFlag = true
        ∧ (set_brightness br q0 perc env).ret = 0)
    ∧ (0 ≤ env.callRes → env.parseRes < 0 →
        (set_brightness br q0 perc env).br.current = br.current
        ∧ (set_brightness br q0 perc env).quitFlag = true
        ∧ (set_brightness br q0 perc env).ret = 0)
    ∧ (0 ≤ env.callRes → 0 ≤ env.parseRes →
        (set_brightness br q0 perc env).br.current = env.reply
        ∧ (set_brightness br q0 perc env).quitFlag = q0
        ∧ (set_brightness br q0 perc env).ret =
            ((env.reply : ℚ) - (br.current : ℚ)) / (br.max : ℚ)) := by
  refine ⟨⟨?_, ratTrunc_eq _⟩, ?_, ?_, ?_⟩
  · unfold set_brightness
    split_ifs <;> rfl
  · intro h
    unfold set_brightness
    rw [if_pos h]
    exact ⟨rfl, rfl, by simp⟩
  · intro h1 h2
    unfold set_brightness
    rw [if_neg (not_lt.mpr h1), if_pos h2]
    exact ⟨rfl, rfl, by simp⟩
  · intro h1 h2
    unfold set_brightness
    rw [if_neg (not_lt.mpr h1), if_neg (not_lt.mpr h2)]
    exact ⟨rfl, rfl, rfl⟩

/-- Witness for `clight_C10` at max level 100: a successful call
requesting 50% with the service reporting back 40 returns
(40 - 20) / 100 = 1/5 and stores 40; a failed call leaves the level at
20, sets quit and returns 0. -/
theorem clight_C10_witness :
    ((set_brightness ⟨20, 100, 0⟩ false (1/2) ⟨0, 0, 40⟩).br.current = 40
    ∧ (set_brightness ⟨20, 100, 0⟩ false (1/2) ⟨0, 0, 40⟩).ret = 1/5
    ∧ (set_brightness ⟨20, 100, 0⟩ false (1/2) ⟨0, 0, 40⟩).level = 50)
    ∧ ((set_brightness ⟨20, 100, 0⟩ false (1/2) ⟨-1, 0, 40⟩).br.current = 20
    ∧ (set_brightness ⟨20, 100, 0⟩ false (1/2) ⟨-1, 0, 40⟩).quitFlag = true
    ∧ (set_brightness ⟨20, 100, 0⟩ false (1/2) ⟨-1, 0, 40⟩).ret = 0) := by
  have hok := (clight_C10 ⟨20, 100, 0⟩ false (1/2) ⟨0, 0, 40⟩).2.2.2
    (by decide) (by decide)
  have hko := (clight_C10 ⟨20, 100, 0⟩ false (1/2) ⟨-1, 0, 40⟩).2.1
    (by decide)
  have hlv := (clight_C10 ⟨20, 100, 0⟩ false (1/2) ⟨0, 0, 40⟩).1.1
  refine ⟨⟨hok.1, ?_, ?_⟩, hko.1, hko.2.1, hko.2.2⟩
  · rw [hok.2.2]
    norm_num
  · rw [hlv]
    norm_num [ratTrunc]
